import Mathlib

/-!
Verification of the captcha-solving and login-retry core of `scraper-script.py`
(au-scraper).  Numpy 2-D `uint8` arrays are modelled as lists of rows of `Nat`
(all pixel values in this program are 0, 1 or 255, far below any overflow);
float percentages are modelled as exact rationals `ℚ` (all comparisons the
program performs on them are along exactly representable paths, except for the
degenerate 0-size division, which yields NaN in numpy and is outside every
statement below); Python exceptions are modelled with `Except String`.
The filesystem seen by `login` is modelled as the list of file paths present,
and the browser driver as an environment function giving, for each attempt,
at which stage of the attempt body the first exception (if any) occurs.
-/

set_option maxRecDepth 10000

deriving instance DecidableEq for Except

namespace AUScraper

/-- A numpy 2-D pixel array, as a list of rows. -/
abbrev Mat : Type := List (List Nat)

/-- Number of columns of a matrix (length of its first row, 0 if empty). -/
def numCols (m : Mat) : Nat := (m.headD []).length

/-- numpy `.shape` for a (rectangular) 2-D array. -/
def shape (m : Mat) : Nat × Nat := (m.length, numCols m)

/-- numpy `.size`: total number of entries of a rectangular 2-D array. -/
def msize (m : Mat) : Nat := m.length * numCols m

/-- Rectangularity: every row has the same length (numpy arrays are never
ragged, so every array produced by the program satisfies this). -/
def wfMat (m : Mat) : Prop := ∀ row ∈ m, row.length = numCols m

instance (m : Mat) : Decidable (wfMat m) :=
  inferInstanceAs (Decidable (∀ row ∈ m, row.length = numCols m))

/-- Entry of a matrix at row `i`, column `j` (0 outside the array; every use
below is guarded by bounds). -/
def elemAt (m : Mat) (i j : Nat) : Nat := (m.getD i []).getD j 0

/-- `CaptchaSolver._load_test_set`, lines 35-46: the single 10x8 template,
written as in the source as a 0/1 matrix scaled by 255 (`np.array([...]) * 255`;
`uint8` cannot overflow here since every entry is 0 or 1). -/
def template0 : Mat :=
  ([[0, 1, 1, 1, 1, 1, 1, 0],
    [1, 1, 1, 1, 1, 1, 1, 1],
    [1, 1, 0, 0, 0, 0, 1, 1],
    [1, 1, 0, 0, 0, 0, 1, 1],
    [1, 1, 0, 0, 0, 0, 1, 1],
    [1, 1, 0, 0, 0, 0, 1, 1],
    [1, 1, 0, 0, 0, 0, 1, 1],
    [1, 1, 0, 0, 0, 0, 1, 1],
    [1, 1, 1, 1, 1, 1, 1, 1],
    [0, 1, 1, 1, 1, 1, 1, 0]] : Mat).map (fun row => row.map (fun v => v * 255))

/-- `CaptchaSolver._load_test_set`, lines 28-50: the shipped template library. -/
def load_test_set : List Mat := [template0]

/-- `self.test_set`, line 25. -/
def test_set : List Mat := load_test_set

/-- `self.char_map`, line 26, as a list of characters. -/
def char_map : List Char := "0123456789ABCDEFGHIJKLMNOPQRSTUVWXYZ".toList

/-- `CaptchaSolver._preprocess_image`, lines 52-63.  PIL decoding and the
resize to width 70, height 20 are external; their output is the resized
single-channel luminance, modelled as a function `lum` giving the luminance
at row `i`, column `j` of the 20x70 resized image.  The embedded part is the
binarization `(matrix > 128) * 255`: strictly greater than 128 maps to 255,
everything else to 0. -/
def preprocess_image (lum : Nat → Nat → Nat) : Mat :=
  (List.range 20).map (fun i =>
    (List.range 70).map (fun j => if 128 < lum i j then 255 else 0))

/-- `CaptchaSolver._extract_character`, lines 65-73:
`matrix[:, start_x : start_x + 10]` with `start_x = position * 10`.
Python slicing clamps out-of-range windows instead of raising, so this is a
total function: positions whose window exceeds the width yield a narrower
(possibly empty) cell.  The `try/except` in the source can never fire. -/
def extract_character (matrix : Mat) (position : Nat) : Mat :=
  matrix.map (fun row => (row.drop (position * 10)).take 10)

/-- numpy broadcast of one dimension: equal, or one of them 1. -/
def bcastDim (a b : Nat) : Option Nat :=
  if a = b then some a else if a = 1 then some b else if b = 1 then some a else none

/-- Broadcast row/column index: a length-1 axis is repeated. -/
def bidx (n i : Nat) : Nat := if n = 1 then 0 else i

/-- All index pairs of an `r` x `c` array, row-major. -/
def idxPairs (r c : Nat) : List (Nat × Nat) :=
  (List.range r).flatMap (fun i => (List.range c).map (fun j => (i, j)))

/-- `np.sum(char_matrix == test_matrix)`: number of positions of the broadcast
result where the two (broadcast) entries are equal. -/
def countEq (ch t : Mat) (r c : Nat) : Nat :=
  List.countP
    (fun ij => decide (elemAt ch (bidx ch.length ij.1) (bidx (numCols ch) ij.2) =
                       elemAt t (bidx t.length ij.1) (bidx (numCols t) ij.2)))
    (idxPairs r c)

/-- `CaptchaSolver._calculate_match_percentage`, lines 75-83:
`np.sum(char_matrix == test_matrix) / char_matrix.size * 100`.
The element-wise `==` requires the two shapes to be broadcast-compatible;
on incompatible shapes numpy raises, which the `except` clause logs and
re-raises, so the error propagates to the caller.  The returned score is the
exact rational value of `matching_pixels / total_pixels * 100`, written with
the executable constructor `mkRat`; the lemma `score_eq_div` below proves it
equal to the literal formula `(matching : ℚ) / total * 100`. -/
def calculate_match_percentage (char_matrix test_matrix : Mat) : Except String ℚ :=
  match bcastDim char_matrix.length test_matrix.length,
        bcastDim (numCols char_matrix) (numCols test_matrix) with
  | some r, some c =>
      Except.ok (mkRat (countEq char_matrix test_matrix r c * 100)
                       (msize char_matrix))
  | _, _ => Except.error ("operands could not be broadcast together")

/-- One iteration of the inner template loop of `CaptchaSolver.solve`,
lines 96-100: `it` is one `(idx, test_matrix)` pair from `enumerate`;
the accumulator is `(best_match, best_char)`, or a pending exception.
`char_map[idx]` raises `IndexError` when `idx` is past the 36 labels. -/
def classifyStep (ch : Mat) (acc : Except String (ℚ × String)) (it : Nat × Mat) :
    Except String (ℚ × String) :=
  match acc with
  | Except.error e => Except.error e
  | Except.ok (best_match, best_char) =>
    match calculate_match_percentage ch it.2 with
    | Except.error e => Except.error e
    | Except.ok match_percent =>
      if match_percent > best_match then
        match char_map.get? it.1 with
        | some c => Except.ok (match_percent, String.mk [c])
        | none => Except.error ("IndexError: string index out of range")
      else Except.ok (best_match, best_char)

/-- Inner template loop of `CaptchaSolver.solve`, lines 93-100: iterate
`enumerate(self.test_set)` from `best_match = 0`, `best_char = ''`, updating
only on a strictly greater score. -/
def classify_character (ts : List Mat) (ch : Mat) : Except String (ℚ × String) :=
  List.foldl (classifyStep ch) (Except.ok (0, "")) ts.enum

/-- One iteration of the position loop of `CaptchaSolver.solve`, lines 91-105.
The accumulator carries `result` (the list of per-position labels) and the
list of positions for which a low-confidence warning (`best_match < 50`,
line 102) has been logged. -/
def solveStep (ts : List Mat) (matrix : Mat) (acc : List String × List Nat)
    (i : Nat) : Except String (List String × List Nat) :=
  match classify_character ts (extract_character matrix i) with
  | Except.error e => Except.error e
  | Except.ok (best_match, best_char) =>
      Except.ok (acc.1 ++ [best_char],
                 if best_match < 50 then acc.2 ++ [i] else acc.2)

/-- The position loop of `CaptchaSolver.solve`, lines 89-105: `for i in
range(6)`, collecting the labels and the logged low-confidence positions. -/
def solve_loop (ts : List Mat) (matrix : Mat) :
    Except String (List String × List Nat) :=
  List.foldlM (solveStep ts matrix) ([], []) (List.range 6)

/-- `''.join(result)`, line 107: concatenation of the per-position labels. -/
def join_all : List String → String
  | [] => ""
  | s :: rest => s ++ join_all rest

/-- `CaptchaSolver.solve`, lines 85-110, for a decodable image whose resized
luminance is `lum`: preprocess, then the position loop, then join.  The
low-confidence log is a side effect and not part of the return value. -/
def solve (ts : List Mat) (lum : Nat → Nat → Nat) : Except String String :=
  Except.map (fun r => join_all r.1) (solve_loop ts (preprocess_image lum))

/-- Classification of position `i` of the preprocessed image, as `solve`
performs it (lines 92-100). -/
def classifyAt (ts : List Mat) (lum : Nat → Nat → Nat) (i : Nat) :
    Except String (ℚ × String) :=
  classify_character ts (extract_character (preprocess_image lum) i)

/-- The best score `solve` ends up with at position `i` (0 when the
classification raised). -/
def bestAt (ts : List Mat) (lum : Nat → Nat → Nat) (i : Nat) : ℚ :=
  match classifyAt ts lum i with
  | Except.ok r => r.1
  | Except.error _ => 0

/-- The label `solve` appends at position `i` (`""` when the classification
raised). -/
def labelAt (ts : List Mat) (lum : Nat → Nat → Nat) (i : Nat) : String :=
  match classifyAt ts lum i with
  | Except.ok r => r.2
  | Except.error _ => ""

/-- `Except.isOk` as a plain function. -/
def exOk {ε α : Type} : Except ε α → Bool
  | Except.ok _ => true
  | Except.error _ => false

/-- `e` succeeded with a value at most `b` (vacuous on errors). -/
def exLe (e : Except String ℚ) (b : ℚ) : Prop :=
  match e with
  | Except.ok p => p ≤ b
  | Except.error _ => True

instance : ∀ (e : Except String ℚ) (b : ℚ), Decidable (exLe e b)
  | Except.ok p, b => inferInstanceAs (Decidable (p ≤ b))
  | Except.error _, _ => Decidable.isTrue trivial

/-- `e` succeeded with a value strictly below `b` (vacuous on errors). -/
def exLt (e : Except String ℚ) (b : ℚ) : Prop :=
  match e with
  | Except.ok p => p < b
  | Except.error _ => True

instance : ∀ (e : Except String ℚ) (b : ℚ), Decidable (exLt e b)
  | Except.ok p, b => inferInstanceAs (Decidable (p < b))
  | Except.error _, _ => Decidable.isTrue trivial

/-! ### The login retry loop, `AUInfoExtractor.login`, lines 135-184

Each attempt's body (the `try` block) can raise its first exception at one of
three places relative to the two statements that matter for cleanup — the
assignment `captcha_path = f"temp_captcha_{attempt}.png"` (line 147) and the
screenshot that creates the file (line 148):
before the assignment (page load, the wait for the username field, or locating
the captcha element — lines 140-146), after the assignment but before the file
exists (the screenshot itself fails), or after the file was created (solving,
form filling, or the dashboard wait — lines 150-163).  `captcha_path` is a
function-scoped Python local: it is unbound until line 147 first runs, and it
keeps its previous attempt's value across iterations.  The `finally` block
(lines 180-182) reads it; reading it while unbound raises `UnboundLocalError`,
which replaces whatever control flow (continue / raise / return) was pending. -/

/-- Which kind of exception the attempt body raised: the two `except` arms
(lines 168 and 174) behave identically, but the raised object differs. -/
inductive EKind
  | timeoutExc
  | otherExc
deriving DecidableEq

/-- Outcome of one attempt's `try` body, positioned relative to the
`captcha_path` assignment and the screenshot. -/
inductive AttemptSpec
  | failBeforeAssign (e : EKind)
  | failBeforeCapture (e : EKind)
  | failAfterCapture (e : EKind)
  | succeed
deriving DecidableEq

/-- An exception escaping `login`. -/
inductive PyError
  | fromAttempt (e : EKind)
  | unboundLocalError
deriving DecidableEq

/-- Control flow pending at the end of one loop iteration. -/
inductive StepOutcome
  | returnTrue
  | raiseErr (e : PyError)
  | continueLoop
deriving DecidableEq

/-- What a call of `login` does. -/
inductive LoginResult
  | success
  | returnedFalse
  | raised (e : PyError)
deriving DecidableEq

/-- `f"temp_captcha_{attempt}.png"`, line 147. -/
def tempPath (attempt : Nat) : String :=
  "temp_captcha_" ++ toString attempt ++ ".png"

/-- The `finally` block, lines 180-182: if `captcha_path` is still unbound the
lookup itself raises `UnboundLocalError` (replacing the pending control flow);
otherwise `if os.path.exists(captcha_path): os.remove(captcha_path)`. -/
def runFinally (pathVar : Option String) (fs : List String)
    (pending : StepOutcome) : StepOutcome × List String :=
  match pathVar with
  | none => (StepOutcome.raiseErr PyError.unboundLocalError, fs)
  | some p => (pending, fs.erase p)

/-- One iteration of the attempt loop (lines 137-182): run the body to its
first exception (if any), run the matching `except` arm — which re-raises on
the last attempt (`attempt == max_retries - 1`) and continues otherwise — and
then the `finally` block.  Returns the pending control flow, the value of the
`captcha_path` variable, and the filesystem. -/
def attemptStep (spec : AttemptSpec) (attempt max_retries : Nat)
    (pathVar : Option String) (fs : List String) :
    StepOutcome × Option String × List String :=
  match spec with
  | AttemptSpec.failBeforeAssign e =>
      let pending := if attempt = max_retries - 1
        then StepOutcome.raiseErr (PyError.fromAttempt e)
        else StepOutcome.continueLoop
      let r := runFinally pathVar fs pending
      (r.1, pathVar, r.2)
  | AttemptSpec.failBeforeCapture e =>
      let pathVar2 := some (tempPath attempt)
      let pending := if attempt = max_retries - 1
        then StepOutcome.raiseErr (PyError.fromAttempt e)
        else StepOutcome.continueLoop
      let r := runFinally pathVar2 fs pending
      (r.1, pathVar2, r.2)
  | AttemptSpec.failAfterCapture e =>
      let pathVar2 := some (tempPath attempt)
      let fs2 := List.insert (tempPath attempt) fs
      let pending := if attempt = max_retries - 1
        then StepOutcome.raiseErr (PyError.fromAttempt e)
        else StepOutcome.continueLoop
      let r := runFinally pathVar2 fs2 pending
      (r.1, pathVar2, r.2)
  | AttemptSpec.succeed =>
      let pathVar2 := some (tempPath attempt)
      let fs2 := List.insert (tempPath attempt) fs
      let r := runFinally pathVar2 fs2 StepOutcome.returnTrue
      (r.1, pathVar2, r.2)

/-- The attempt loop `for attempt in range(max_retries)` of `login`,
iterating over the remaining attempt indices.  Falling off the end of the
loop reaches the trailing `return False` (line 184).  The final `Nat` counts
the attempts started. -/
def loginGo (env : Nat → AttemptSpec) (max_retries : Nat) :
    List Nat → Option String → List String → Nat →
    LoginResult × List String × Nat
  | [], _, fs, count => (LoginResult.returnedFalse, fs, count)
  | a :: rest, pathVar, fs, count =>
      match attemptStep (env a) a max_retries pathVar fs with
      | (StepOutcome.returnTrue, _, fs2) => (LoginResult.success, fs2, count + 1)
      | (StepOutcome.raiseErr e, _, fs2) => (LoginResult.raised e, fs2, count + 1)
      | (StepOutcome.continueLoop, pathVar2, fs2) =>
          loginGo env max_retries rest pathVar2 fs2 (count + 1)

/-- `AUInfoExtractor.login`, lines 135-184: `env a` says how attempt `a` goes
(credentials and the driver do not influence the control flow otherwise);
`fs` is the filesystem at the call.  `captcha_path` starts unbound. -/
def login (env : Nat → AttemptSpec) (max_retries : Nat) (fs : List String) :
    LoginResult × List String × Nat :=
  loginGo env max_retries (List.range max_retries) none fs 0

/-! ### Basic lemmas -/

/-- The score stored by `calculate_match_percentage` is exactly the source's
formula `matching_pixels / total_pixels * 100` evaluated in `ℚ`. -/
theorem score_eq_div (m t : Nat) :
    mkRat (m * 100) t = (m : ℚ) / (t : ℚ) * 100 := by
  rcases Nat.eq_zero_or_pos t with ht | ht
  · subst ht
    simp [mkRat]
  · rw [Rat.mkRat_eq_div]
    push_cast
    rw [mul_div_right_comm]

theorem extract_character_rows (m : Mat) (p : Nat) :
    (extract_character m p).length = m.length := by
  simp [extract_character]

theorem extract_character_cols (m : Mat) (p : Nat) :
    numCols (extract_character m p) = min 10 (numCols m - p * 10) := by
  cases m with
  | nil => simp [extract_character, numCols]
  | cons r rest =>
      simp [extract_character, numCols, List.length_take, List.length_drop]

/-! ### C6: character extraction out of range -/

/-- C6 counterexample: at position 7 on a 20x70 matrix the column window
`[70, 80)` exceeds the matrix width, yet `_extract_character` does not fail:
it returns a cell (20 rows of width 0), because Python slicing clamps.  There
is no `SegmentationError` anywhere in the code. -/
theorem extract_position7_returns_cell :
    extract_character (List.replicate 20 (List.replicate 70 0)) 7 =
      List.replicate 20 ([] : List Nat) := by decide

/-- C6 (amended): `_extract_character` is total — for every matrix and every
position it returns a cell with all the rows and `min 10 (width - 10*position)`
columns; an out-of-range window is clamped (down to an empty cell), never an
error. -/
theorem extract_character_clamps (matrix : Mat) (position : Nat) :
    (extract_character matrix position).length = matrix.length ∧
    numCols (extract_character matrix position) =
      min 10 (numCols matrix - position * 10) :=
  ⟨extract_character_rows matrix position, extract_character_cols matrix position⟩

/-! ### C3: empty template library -/

/-- C3 counterexample: with an empty template library, `solve` does not raise
any `ConfigurationError` (none exists in the code): it preprocesses the image
and returns the empty string. -/
theorem empty_library_no_configuration_error :
    solve ([] : List Mat) (fun _ _ => 0) = Except.ok ("") := by decide

/-- C3 (amended): the code performs no emptiness check and defines no
`ConfigurationError`.  With an empty template library `solve` still
preprocesses the image (so image I/O is attempted) and returns without error:
every position keeps `best_char = ''` and best score 0, every position is
logged as a low-confidence match, and the returned solution is the empty
string. -/
theorem solve_empty_library (lum : Nat → Nat → Nat) :
    solve ([] : List Mat) lum = Except.ok ("") ∧
    solve_loop [] (preprocess_image lum) =
      Except.ok (["", "", "", "", "", ""], [0, 1, 2, 3, 4, 5]) :=
  ⟨rfl, rfl⟩

/-! ### C4: the retry budget -/

/-- C4: with `max_retries = 3` and every attempt failing, if the first
attempt's failure occurs before line 147 ever assigns `captcha_path` (for
example the login page load times out), the `finally` block (line 181) reads
the still-unbound local `captcha_path` and raises `UnboundLocalError`:
`login` makes exactly 1 attempt and raises `UnboundLocalError`, not 3 attempts
with the final attempt's own error. -/
theorem login_unbound_local_crash :
    login (fun _ => AttemptSpec.failBeforeAssign EKind.timeoutExc) 3 [] =
      (LoginResult.raised PyError.unboundLocalError, [], 1) := by decide

/-! ### C5: per-attempt cleanup of the temporary captcha image -/

/-- C5: for every attempt and every exit path of that attempt — success
(`return True`), retry loop-back, a re-raise on the last attempt, or the
`UnboundLocalError` escape from `finally` — the temporary captcha image of
the just-completed attempt is absent from the filesystem when the attempt's
iteration ends (so before the next attempt begins, or before `login` returns
or raises), provided it was not already present before the attempt. -/
theorem attempt_cleanup (spec : AttemptSpec) (attempt max_retries : Nat)
    (pathVar : Option String) (fs : List String)
    (h : tempPath attempt ∉ fs) :
    tempPath attempt ∉ (attemptStep spec attempt max_retries pathVar fs).2.2 := by
  have herase : ∀ (l : List String) (p : String),
      tempPath attempt ∉ l → tempPath attempt ∉ l.erase p :=
    fun l p hl hmem => hl (List.erase_subset p l hmem)
  have hinsert :
      tempPath attempt ∉ (List.insert (tempPath attempt) fs).erase (tempPath attempt) := by
    rw [List.insert_of_not_mem h, List.erase_cons_head]
    exact h
  cases spec <;> cases pathVar <;>
    simp only [attemptStep, runFinally] <;>
    first
      | exact h
      | exact herase _ _ h
      | exact hinsert

/-- C5 witness at a concrete attempt. -/
theorem attempt_cleanup_witness :
    (tempPath 0 ∉ ([] : List String)) ∧
    tempPath 0 ∉ (attemptStep AttemptSpec.succeed 0 3 none []).2.2 :=
  ⟨by decide, attempt_cleanup AttemptSpec.succeed 0 3 none [] (by decide)⟩

/-! ### C10: `login` never returns `False` -/

theorem attemptStep_last_no_continue (spec : AttemptSpec) (a mr : Nat)
    (pv : Option String) (fs : List String) (h : a = mr - 1) :
    (attemptStep spec a mr pv fs).1 ≠ StepOutcome.continueLoop := by
  cases spec <;> cases pv <;> simp [attemptStep, runFinally, h]

theorem loginGo_not_false (l : List Nat) (env : Nat → AttemptSpec) (mr : Nat)
    (pv : Option String) (fs : List String) (cnt : Nat) (hmem : mr - 1 ∈ l) :
    (loginGo env mr l pv fs cnt).1 ≠ LoginResult.returnedFalse := by
  induction l generalizing pv fs cnt with
  | nil => simp at hmem
  | cons a rest ih =>
    rcases hstep : attemptStep (env a) a mr pv fs with ⟨out, pv2, fs2⟩
    cases out with
    | returnTrue => simp [loginGo, hstep]
    | raiseErr e => simp [loginGo, hstep]
    | continueLoop =>
      have ha : a ≠ mr - 1 := by
        intro heq
        exact attemptStep_last_no_continue (env a) a mr pv fs heq (by rw [hstep])
      have hmem2 : mr - 1 ∈ rest := by
        rcases List.mem_cons.mp hmem with h1 | h1
        · exact absurd h1.symm ha
        · exact h1
      simp only [loginGo, hstep]
      exact ih pv2 fs2 (cnt + 1) hmem2

/-- C10: with the default retry budget (3, as every caller uses), `login`
never reaches the trailing `return False`: it either returns `True` or lets
an exception propagate, for every behaviour of the driver environment and
every starting filesystem. -/
theorem login_never_returns_false (env : Nat → AttemptSpec) (fs : List String) :
    (login env 3 fs).1 = LoginResult.success ∨
    ∃ e, (login env 3 fs).1 = LoginResult.raised e := by
  have h := loginGo_not_false (List.range 3) env 3 none fs 0 (by decide)
  cases hres : (login env 3 fs).1 with
  | success => exact Or.inl rfl
  | returnedFalse => exact absurd hres h
  | raised e => exact Or.inr ⟨e, rfl⟩

/-! ### C9 and C1 counterexamples -/

/-- C9 counterexample: both templates of this two-template library score the
same top confidence (0) against the cell `[[0]]`, but the returned label is
`''`, not the lower-index template's label `'0'`: a zero score never beats the
initial `best_match = 0` under the strict comparison, so no label at all is
selected. -/
theorem classify_zero_tie_returns_empty :
    calculate_match_percentage [[0]] [[255]] = Except.ok 0 ∧
    classify_character [[[255]], [[255]]] [[0]] = Except.ok (0, "") ∧
    ("" : String) ≠ ("0" : String) := by decide

/-- C1 counterexample: on the all-black captcha (a perfectly decodable image),
`solve` with the shipped template library returns no solution string at all —
the 20x10 cell and the 10x8 template are not broadcast-compatible, so the very
first comparison raises and `solve` re-raises — contradicting "the returned
solution string always has exactly 6 characters". -/
theorem solve_shipped_raises :
    solve test_set (fun _ _ => 0) =
      Except.error ("operands could not be broadcast together") := by decide


theorem length_idxPairs (r c : Nat) : (idxPairs r c).length = r * c := by
  simp only [idxPairs, List.length_flatMap]
  have hconst : (List.length ∘ fun i => List.map (fun j => (i, j)) (List.range c)) =
      fun _ : Nat => c := by
    funext i
    simp
  rw [hconst]
  simp [List.map_const, List.sum_replicate, smul_eq_mul]

theorem mem_idxPairs (r c : Nat) (ij : Nat × Nat) :
    ij ∈ idxPairs r c ↔ ij.1 < r ∧ ij.2 < c := by
  rcases ij with ⟨i, j⟩
  simp [idxPairs, List.mem_flatMap, List.mem_map, List.mem_range, Prod.ext_iff]

theorem getD_get {α : Type} (l : List α) (d : α) (i : Nat) (h : i < l.length) :
    l.getD i d = l.get ⟨i, h⟩ := by
  rw [List.getD_eq_getElem?_getD, List.getElem?_eq_getElem h]
  rfl

theorem getD_map_range {α : Type} (n i : Nat) (f : Nat → α) (d : α) (h : i < n) :
    ((List.range n).map f).getD i d = f i := by
  rw [List.getD_eq_getElem?_getD, List.getElem?_map, List.getElem?_range h]
  rfl

theorem calc_error_of_rows (ch t : Mat)
    (h : bcastDim ch.length t.length = none) :
    calculate_match_percentage ch t =
      Except.error ("operands could not be broadcast together") := by
  unfold calculate_match_percentage
  rw [h]

theorem numCols_preprocess (lum : Nat → Nat → Nat) :
    numCols (preprocess_image lum) = 70 := by
  have h20 : List.range 20 = 0 :: (List.range 19).map Nat.succ :=
    List.range_succ_eq_map 19
  rw [preprocess_image, h20]
  simp [numCols]

/-- C7: for every decodable image, `_preprocess_image` returns a matrix with
exactly the fixed dimensions (20 rows, 70 columns), rectangular, in which a
pixel is 255 exactly when its resized luminance is strictly greater than 128
and 0 otherwise — so every entry is in {0, 255}. -/
theorem preprocess_image_spec (lum : Nat → Nat → Nat) :
    shape (preprocess_image lum) = (20, 70) ∧
    wfMat (preprocess_image lum) ∧
    (∀ row ∈ preprocess_image lum, ∀ v ∈ row, v = 0 ∨ v = 255) ∧
    (∀ i j, i < 20 → j < 70 →
      elemAt (preprocess_image lum) i j = if 128 < lum i j then 255 else 0) := by
  refine ⟨?_, ?_, ?_, ?_⟩
  · rw [shape, numCols_preprocess]
    simp [preprocess_image]
  · intro row hrow
    rw [numCols_preprocess]
    rcases List.mem_map.mp hrow with ⟨i, hi, rfl⟩
    simp
  · intro row hrow v hv
    rcases List.mem_map.mp hrow with ⟨i, hi, rfl⟩
    rcases List.mem_map.mp hv with ⟨j, hj, rfl⟩
    split
    · exact Or.inr rfl
    · exact Or.inl rfl
  · intro i j hi hj
    rw [elemAt, preprocess_image, getD_map_range 20 i _ _ hi, getD_map_range 70 j _ _ hj]


/-- C2: in the shipped pipeline every extracted cell is 20x10, every template
is 10x8, and the two shapes are never broadcast-compatible, so every single
call of `_calculate_match_percentage` made by `solve` violates the shape
precondition of the element-wise comparison and raises. -/
theorem shipped_shape_mismatch (m : Mat) (hwf : wfMat m)
    (hsh : shape m = (20, 70)) (i : Nat) (hi : i < 6) (t : Mat)
    (ht : t ∈ test_set) :
    shape (extract_character m i) = (20, 10) ∧ shape t = (10, 8) ∧
    ∃ e, calculate_match_percentage (extract_character m i) t =
      Except.error e := by
  have hsh1 : m.length = 20 := by
    have h1 := congrArg Prod.fst hsh
    simpa [shape] using h1
  have hsh2 : numCols m = 70 := by
    have h2 := congrArg Prod.snd hsh
    simpa [shape] using h2
  have ht0 : t = template0 := by
    simpa [test_set, load_test_set] using ht
  subst ht0
  have hrows : (extract_character m i).length = 20 := by
    rw [extract_character_rows, hsh1]
  have hcols : numCols (extract_character m i) = 10 := by
    rw [extract_character_cols, hsh2]
    omega
  refine ⟨?_, by decide, "operands could not be broadcast together", ?_⟩
  · rw [shape, hrows, hcols]
  · apply calc_error_of_rows
    rw [hrows]
    decide

/-- C2 witness at the all-zero 20x70 matrix, position 0, the shipped
template. -/
theorem shipped_shape_mismatch_witness :
    wfMat (List.replicate 20 (List.replicate 70 0)) ∧
    shape (List.replicate 20 (List.replicate 70 0)) = (20, 70) ∧
    (0 : Nat) < 6 ∧ template0 ∈ test_set ∧
    (shape (extract_character (List.replicate 20 (List.replicate 70 0)) 0) =
        (20, 10) ∧
     shape template0 = (10, 8) ∧
     ∃ e, calculate_match_percentage
        (extract_character (List.replicate 20 (List.replicate 70 0)) 0)
        template0 = Except.error e) :=
  ⟨by decide, by decide, by decide, by decide,
   shipped_shape_mismatch _ (by decide) (by decide) 0 (by decide) template0
     (by decide)⟩

/-- C7 witness at a concrete luminance function and pixel. -/
theorem preprocess_image_spec_witness :
    shape (preprocess_image (fun i j => i * j)) = (20, 70) ∧
    elemAt (preprocess_image (fun i j => i * j)) 10 19 = 255 := by
  refine ⟨(preprocess_image_spec _).1, ?_⟩
  have h := (preprocess_image_spec (fun i j => i * j)).2.2.2 10 19
    (by decide) (by decide)
  rw [h]
  decide

theorem bidx_lt (n i : Nat) (h : i < n) : bidx n i = i := by
  unfold bidx
  split
  · omega
  · rfl

theorem countEq_eq_direct (ch t : Mat) (hlen : ch.length = t.length)
    (hcols : numCols ch = numCols t) :
    countEq ch t ch.length (numCols ch) =
      List.countP (fun ij => decide (elemAt ch ij.1 ij.2 = elemAt t ij.1 ij.2))
        (idxPairs ch.length (numCols ch)) := by
  unfold countEq
  apply List.countP_congr
  intro ij hij
  rcases (mem_idxPairs _ _ ij).mp hij with ⟨h1, h2⟩
  rw [bidx_lt ch.length ij.1 h1, bidx_lt (numCols ch) ij.2 h2,
      bidx_lt t.length ij.1 (hlen ▸ h1), bidx_lt (numCols t) ij.2 (hcols ▸ h2)]

theorem wf_ext (ch t : Mat) (hwfc : wfMat ch) (hwft : wfMat t)
    (hlen : ch.length = t.length) (hcols : numCols ch = numCols t) :
    (∀ i j, i < ch.length → j < numCols ch → elemAt ch i j = elemAt t i j) ↔
      ch = t := by
  constructor
  · intro h
    apply List.ext_get hlen
    intro n h1 h2
    have hrc : (ch.get ⟨n, h1⟩).length = numCols ch :=
      hwfc _ (List.get_mem ch n h1)
    have hrt : (t.get ⟨n, h2⟩).length = numCols t :=
      hwft _ (List.get_mem t n h2)
    apply List.ext_get
    · rw [hrc, hrt, hcols]
    · intro j hj1 hj2
      have hx := h n j h1 (by rw [← hrc]; exact hj1)
      rw [elemAt, elemAt, getD_get ch [] n h1, getD_get t [] n h2,
          getD_get _ 0 j hj1, getD_get _ 0 j hj2] at hx
      exact hx
  · intro h i j hi hj
    rw [h]

/-- C8: for every cell and template of identical (nonempty, rectangular)
shape, the score is in [0, 100], is 100 iff the cell equals the template
pixel for pixel, and is 0 iff no pixel position matches. -/
theorem match_percentage_spec (ch t : Mat) (hwfc : wfMat ch) (hwft : wfMat t)
    (hlen : ch.length = t.length) (hcols : numCols ch = numCols t)
    (hsize : 0 < msize ch) :
    ∃ q, calculate_match_percentage ch t = Except.ok q ∧
      0 ≤ q ∧ q ≤ 100 ∧ (q = 100 ↔ ch = t) ∧
      (q = 0 ↔ ∀ i j, i < ch.length → j < numCols ch →
        elemAt ch i j ≠ elemAt t i j) := by
  have hb1 : bcastDim ch.length t.length = some ch.length := by
    rw [← hlen]
    simp [bcastDim]
  have hb2 : bcastDim (numCols ch) (numCols t) = some (numCols ch) := by
    rw [← hcols]
    simp [bcastDim]
  have hcalc : calculate_match_percentage ch t =
      Except.ok (mkRat (countEq ch t ch.length (numCols ch) * 100) (msize ch)) := by
    unfold calculate_match_percentage
    rw [hb1, hb2]
  have hq : mkRat (countEq ch t ch.length (numCols ch) * 100) (msize ch) =
      ((countEq ch t ch.length (numCols ch) : ℚ) / (msize ch : ℚ)) * 100 :=
    score_eq_div _ _
  have hT0 : (0 : ℚ) < ((msize ch : Nat) : ℚ) := by exact_mod_cast hsize
  have hlp : (idxPairs ch.length (numCols ch)).length = msize ch :=
    length_idxPairs _ _
  have hNle : countEq ch t ch.length (numCols ch) ≤ msize ch := by
    calc countEq ch t ch.length (numCols ch)
        ≤ (idxPairs ch.length (numCols ch)).length := List.countP_le_length _
      _ = msize ch := hlp
  have hcount : (countEq ch t ch.length (numCols ch) = msize ch) ↔ ch = t := by
    rw [countEq_eq_direct ch t hlen hcols, ← hlp, List.countP_eq_length]
    constructor
    · intro hall
      apply (wf_ext ch t hwfc hwft hlen hcols).mp
      intro i j hi hj
      have hd := hall (i, j) ((mem_idxPairs _ _ _).mpr ⟨hi, hj⟩)
      exact of_decide_eq_true hd
    · intro hct
      intro ij hij
      rw [hct]
      exact decide_eq_true rfl
  have hzero : (countEq ch t ch.length (numCols ch) = 0) ↔
      ∀ i j, i < ch.length → j < numCols ch → elemAt ch i j ≠ elemAt t i j := by
    rw [countEq_eq_direct ch t hlen hcols, List.countP_eq_zero]
    constructor
    · intro hall i j hi hj
      have hd := hall (i, j) ((mem_idxPairs _ _ _).mpr ⟨hi, hj⟩)
      simpa using hd
    · intro hne ij hij
      rcases (mem_idxPairs _ _ ij).mp hij with ⟨h1, h2⟩
      simpa using hne ij.1 ij.2 h1 h2
  refine ⟨_, hcalc, ?_, ?_, ?_, ?_⟩
  · rw [hq]
    positivity
  · rw [hq]
    have hc : ((countEq ch t ch.length (numCols ch) : Nat) : ℚ) ≤
        ((msize ch : Nat) : ℚ) := by exact_mod_cast hNle
    calc ((countEq ch t ch.length (numCols ch) : Nat) : ℚ) /
          ((msize ch : Nat) : ℚ) * 100
        ≤ ((msize ch : Nat) : ℚ) / ((msize ch : Nat) : ℚ) * 100 := by gcongr
      _ = 100 := by rw [div_self (ne_of_gt hT0), one_mul]
  · rw [hq, div_mul_eq_mul_div, div_eq_iff (ne_of_gt hT0),
      mul_comm ((countEq ch t ch.length (numCols ch) : Nat) : ℚ) (100 : ℚ),
      mul_right_inj' (by norm_num : (100 : ℚ) ≠ 0), Nat.cast_inj]
    exact hcount
  · rw [hq, mul_eq_zero, div_eq_zero_iff]
    constructor
    · intro hd
      rcases hd with (hd | hd) | hd
      · exact hzero.mp (by exact_mod_cast hd)
      · exact absurd hd (ne_of_gt hT0)
      · norm_num at hd
    · intro hne
      exact Or.inl (Or.inl (by exact_mod_cast hzero.mpr hne))

/-- C8 witness: a 1x2 cell against a 1x2 template sharing one pixel. -/
theorem match_percentage_spec_witness :
    wfMat [[0, 255]] ∧ wfMat [[0, 0]] ∧ 0 < msize [[0, 255]] ∧
    (∃ q, calculate_match_percentage [[0, 255]] [[0, 0]] = Except.ok q ∧
      0 ≤ q ∧ q ≤ 100 ∧ (q = 100 ↔ ([[0, 255]] : Mat) = [[0, 0]]) ∧
      (q = 0 ↔ ∀ i j, i < ([[0, 255]] : Mat).length → j < numCols [[0, 255]] →
        elemAt [[0, 255]] i j ≠ elemAt [[0, 0]] i j)) :=
  ⟨by decide, by decide, by decide,
   match_percentage_spec [[0, 255]] [[0, 0]] (by decide) (by decide)
     (by decide) (by decide) (by decide)⟩


theorem foldl_classifyStep_error (ch : Mat) (l : List (Nat × Mat)) (e : String) :
    List.foldl (classifyStep ch) (Except.error e) l = Except.error e := by
  induction l with
  | nil => rfl
  | cons x rest ih =>
    rw [List.foldl_cons]
    exact ih

theorem foldl_classifyStep_len (ch : Mat) (l : List (Nat × Mat)) :
    ∀ (acc : Except String (ℚ × String)),
      (∀ b c, acc = Except.ok (b, c) → c.length ≤ 1) →
      ∀ b c, List.foldl (classifyStep ch) acc l = Except.ok (b, c) →
        c.length ≤ 1 := by
  induction l with
  | nil =>
    intro acc hinv b c h
    exact hinv b c h
  | cons x rest ih =>
    intro acc hinv b c h
    rw [List.foldl_cons] at h
    refine ih (classifyStep ch acc x) ?_ b c h
    intro b2 c2 hstep
    cases acc with
    | error e => simp [classifyStep] at hstep
    | ok p =>
      rcases p with ⟨b0, c0⟩
      cases hcalc : calculate_match_percentage ch x.2 with
      | error e =>
        simp [classifyStep, hcalc] at hstep
      | ok p2 =>
        simp only [classifyStep, hcalc] at hstep
        by_cases hgt : p2 > b0
        · rw [if_pos hgt] at hstep
          cases hget : char_map.get? x.1 with
          | none =>
            rw [hget] at hstep
            simp at hstep
          | some chr =>
            rw [hget] at hstep
            rw [Except.ok.injEq, Prod.mk.injEq] at hstep
            obtain ⟨h1, h2⟩ := hstep
            rw [← h2]
            exact Nat.le_refl 1
        · rw [if_neg hgt] at hstep
          rw [Except.ok.injEq, Prod.mk.injEq] at hstep
          obtain ⟨h1, h2⟩ := hstep
          exact h2 ▸ hinv b0 c0 rfl

theorem classify_character_label_len (ts : List Mat) (ch : Mat) (b : ℚ)
    (c : String) (h : classify_character ts ch = Except.ok (b, c)) :
    c.length ≤ 1 := by
  refine foldl_classifyStep_len ch ts.enum (Except.ok (0, "")) ?_ b c h
  intro b0 c0 h0
  rw [Except.ok.injEq, Prod.mk.injEq] at h0
  rw [← h0.2]
  exact Nat.zero_le 1

theorem solve_loop_go (ts : List Mat) (lum : Nat → Nat → Nat) (l : List Nat)
    (h : ∀ i ∈ l, exOk (classifyAt ts lum i) = true)
    (acc1 : List String) (acc2 : List Nat) :
    List.foldlM (solveStep ts (preprocess_image lum)) (acc1, acc2) l =
      Except.ok (acc1 ++ l.map (labelAt ts lum),
                 acc2 ++ l.filter (fun i => decide (bestAt ts lum i < 50))) := by
  induction l generalizing acc1 acc2 with
  | nil =>
    simp only [List.map_nil, List.filter_nil, List.append_nil]
    rfl
  | cons i rest ih =>
    have hok := h i (List.mem_cons_self i rest)
    cases hc : classifyAt ts lum i with
    | error e =>
      rw [hc] at hok
      simp [exOk] at hok
    | ok p =>
      rcases p with ⟨b, c⟩
      have hstep : solveStep ts (preprocess_image lum) (acc1, acc2) i =
          Except.ok (acc1 ++ [c], if b < 50 then acc2 ++ [i] else acc2) := by
        unfold solveStep
        unfold classifyAt at hc
        rw [hc]
      have hlabel : labelAt ts lum i = c := by
        unfold labelAt
        rw [hc]
      have hbest : bestAt ts lum i = b := by
        unfold bestAt
        rw [hc]
      rw [List.foldlM_cons, hstep]
      have hbind :
          (Except.ok (acc1 ++ [c], if b < 50 then acc2 ++ [i] else acc2) >>=
            fun acc => List.foldlM (solveStep ts (preprocess_image lum)) acc rest) =
          List.foldlM (solveStep ts (preprocess_image lum))
            (acc1 ++ [c], if b < 50 then acc2 ++ [i] else acc2) rest := rfl
      rw [hbind, ih (fun j hj => h j (List.mem_cons_of_mem i hj))]
      simp only [List.map_cons, List.filter_cons, hlabel, hbest]
      by_cases hb : b < 50
      · simp [hb, List.append_assoc]
      · simp [hb, List.append_assoc]

/-- C1 (amended): `solve` never aborts because of low confidence.  Whenever
every per-position classification succeeds (no exception), `solve`'s loop
returns: the solution is the concatenation of the six per-position best
labels in position order — a position whose best score is below 50 is logged
as low-confidence and its label is still included — and each label has at
most one character (it is empty exactly when no template scored strictly
above 0), so the solution has at most 6 characters, not always exactly 6.
With the shipped templates the classification never succeeds at all, so the
hypothesis below is never met by the shipped pipeline. -/
theorem solve_low_confidence_no_abort (ts : List Mat) (lum : Nat → Nat → Nat)
    (h : ∀ i, i < 6 → exOk (classifyAt ts lum i) = true) :
    solve_loop ts (preprocess_image lum) =
      Except.ok ((List.range 6).map (labelAt ts lum),
        (List.range 6).filter (fun i => decide (bestAt ts lum i < 50))) ∧
    ∀ i, i < 6 → (labelAt ts lum i).length ≤ 1 := by
  constructor
  · have hgo := solve_loop_go ts lum (List.range 6)
      (fun i hi => h i (List.mem_range.mp hi)) [] []
    simpa [solve_loop] using hgo
  · intro i hi
    cases hc : classifyAt ts lum i with
    | error e => simp [labelAt, hc]
    | ok p =>
      rcases p with ⟨b, c⟩
      have hlen := classify_character_label_len ts
        (extract_character (preprocess_image lum) i) b c
        (by unfold classifyAt at hc; exact hc)
      simpa [labelAt, hc] using hlen

/-- C1 witness: a (hypothetical) 20x10 all-zero template matches every cell of
the all-black captcha, so every classification succeeds. -/
theorem solve_low_confidence_no_abort_witness :
    (∀ i, i < 6 → exOk (classifyAt [List.replicate 20 (List.replicate 10 0)]
      (fun _ _ => 0) i) = true) ∧
    (solve_loop [List.replicate 20 (List.replicate 10 0)]
        (preprocess_image (fun _ _ => 0)) =
      Except.ok ((List.range 6).map
          (labelAt [List.replicate 20 (List.replicate 10 0)] (fun _ _ => 0)),
        (List.range 6).filter (fun i =>
          decide (bestAt [List.replicate 20 (List.replicate 10 0)]
            (fun _ _ => 0) i < 50))) ∧
     ∀ i, i < 6 →
      (labelAt [List.replicate 20 (List.replicate 10 0)] (fun _ _ => 0) i).length ≤ 1) :=
  ⟨by decide,
   solve_low_confidence_no_abort [List.replicate 20 (List.replicate 10 0)]
     (fun _ _ => 0) (by decide)⟩


theorem fold_no_improve (ch : Mat) (l : List Mat) :
    ∀ (n : Nat) (b : ℚ) (c : String) (res : ℚ × String),
      (∀ t ∈ l, exLe (calculate_match_percentage ch t) b) →
      List.foldl (classifyStep ch) (Except.ok (b, c)) (List.enumFrom n l) =
        Except.ok res →
      res = (b, c) := by
  induction l with
  | nil =>
    intro n b c res hall hres
    injection hres with h
    exact h.symm
  | cons t rest ih =>
    intro n b c res hall hres
    have hle := hall t (List.mem_cons_self t rest)
    rw [List.enumFrom_cons, List.foldl_cons] at hres
    cases hcalc : calculate_match_percentage ch t with
    | error e =>
      rw [show classifyStep ch (Except.ok (b, c)) (n, t) = Except.error e from by
        simp [classifyStep, hcalc]] at hres
      rw [foldl_classifyStep_error] at hres
      simp at hres
    | ok p =>
      rw [hcalc] at hle
      have hpb : p ≤ b := hle
      have hstep : classifyStep ch (Except.ok (b, c)) (n, t) =
          Except.ok (b, c) := by
        simp only [classifyStep, hcalc]
        rw [if_neg (not_lt.mpr hpb)]
      rw [hstep] at hres
      exact ih (n + 1) b c res (fun t2 ht2 => hall t2 (List.mem_cons_of_mem t ht2))
        hres

theorem classify_fold_first_max (ch : Mat) (l : List Mat) :
    ∀ (n : Nat) (b0 : ℚ) (c0 : String) (res : ℚ × String),
      List.foldl (classifyStep ch) (Except.ok (b0, c0)) (List.enumFrom n l) =
        Except.ok res →
      ∀ (i : Nat) (hi : i < l.length) (b : ℚ),
        calculate_match_percentage ch (l.get ⟨i, hi⟩) = Except.ok b →
        b0 < b →
        (∀ k (hk : k < i),
          exLt (calculate_match_percentage ch (l.get ⟨k, Nat.lt_trans hk hi⟩)) b) →
        (∀ k (hk : k < l.length),
          exLe (calculate_match_percentage ch (l.get ⟨k, hk⟩)) b) →
        n + i < char_map.length →
        res = (b, String.mk [char_map.getD (n + i) ' ']) := by
  induction l with
  | nil =>
    intro n b0 c0 res hres i hi
    exact absurd hi (Nat.not_lt_zero i)
  | cons t rest ih =>
    intro n b0 c0 res hres i hi b hb hb0 hlt hall h36
    rw [List.enumFrom_cons, List.foldl_cons] at hres
    cases hcalc : calculate_match_percentage ch t with
    | error e =>
      rw [show classifyStep ch (Except.ok (b0, c0)) (n, t) = Except.error e from by
        simp [classifyStep, hcalc]] at hres
      rw [foldl_classifyStep_error] at hres
      simp at hres
    | ok p =>
      cases i with
      | zero =>
        have hpt : p = b := by
          have hbt : calculate_match_percentage ch t = Except.ok b := hb
          rw [hcalc] at hbt
          injection hbt
        subst hpt
        have hn : n < char_map.length := by simpa using h36
        have hstep : classifyStep ch (Except.ok (b0, c0)) (n, t) =
            Except.ok (p, String.mk [char_map.get ⟨n, hn⟩]) := by
          simp only [classifyStep, hcalc]
          rw [if_pos hb0, List.get?_eq_get hn]
        rw [hstep] at hres
        have hrest : ∀ t2 ∈ rest, exLe (calculate_match_percentage ch t2) p := by
          intro t2 ht2
          rcases List.mem_iff_get.mp ht2 with ⟨⟨k, hk⟩, hget⟩
          have hx := hall (k + 1) (Nat.succ_lt_succ hk)
          rw [show (t :: rest).get ⟨k + 1, Nat.succ_lt_succ hk⟩ =
            rest.get ⟨k, hk⟩ from rfl] at hx
          rw [hget] at hx
          exact hx
        have hdone := fold_no_improve ch rest (n + 1) p
          (String.mk [char_map.get ⟨n, hn⟩]) res hrest hres
        rw [hdone]
        have hgd : char_map.getD (n + 0) ' ' = char_map.get ⟨n, hn⟩ := by
          rw [Nat.add_zero]
          exact getD_get char_map ' ' n hn
        rw [hgd]
      | succ k =>
        have hk1 : k < rest.length := Nat.lt_of_succ_lt_succ hi
        have hp_lt : p < b := by
          have h0 := hlt 0 (Nat.succ_pos k)
          rw [show (t :: rest).get ⟨0, Nat.lt_trans (Nat.succ_pos k) hi⟩ = t
            from rfl] at h0
          rw [hcalc] at h0
          exact h0
        have hbk : calculate_match_percentage ch (rest.get ⟨k, hk1⟩) =
            Except.ok b := by
          rw [show rest.get ⟨k, hk1⟩ = (t :: rest).get ⟨k + 1, hi⟩ from rfl]
          exact hb
        have hlt2 : ∀ k2 (hk2 : k2 < k),
            exLt (calculate_match_percentage ch
              (rest.get ⟨k2, Nat.lt_trans hk2 hk1⟩)) b := by
          intro k2 hk2
          have hx := hlt (k2 + 1) (Nat.succ_lt_succ hk2)
          rw [show (t :: rest).get ⟨k2 + 1,
            Nat.lt_trans (Nat.succ_lt_succ hk2) hi⟩ =
            rest.get ⟨k2, Nat.lt_trans hk2 hk1⟩ from rfl] at hx
          exact hx
        have hall2 : ∀ k2 (hk2 : k2 < rest.length),
            exLe (calculate_match_percentage ch (rest.get ⟨k2, hk2⟩)) b := by
          intro k2 hk2
          have hx := hall (k2 + 1) (Nat.succ_lt_succ hk2)
          rw [show (t :: rest).get ⟨k2 + 1, Nat.succ_lt_succ hk2⟩ =
            rest.get ⟨k2, hk2⟩ from rfl] at hx
          exact hx
        have h36b : (n + 1) + k < char_map.length := by omega
        by_cases hpb : p > b0
        · cases hget : char_map.get? n with
          | none =>
            rw [show classifyStep ch (Except.ok (b0, c0)) (n, t) =
                Except.error ("IndexError: string index out of range") from by
              simp only [classifyStep, hcalc]
              rw [if_pos hpb, hget]] at hres
            rw [foldl_classifyStep_error] at hres
            simp at hres
          | some chr =>
            rw [show classifyStep ch (Except.ok (b0, c0)) (n, t) =
                Except.ok (p, String.mk [chr]) from by
              simp only [classifyStep, hcalc]
              rw [if_pos hpb, hget]] at hres
            have hdone := ih (n + 1) p (String.mk [chr]) res hres k hk1 b hbk
              hp_lt hlt2 hall2 h36b
            rw [hdone, show (n + 1) + k = n + (k + 1) from by omega]
        · rw [show classifyStep ch (Except.ok (b0, c0)) (n, t) =
              Except.ok (b0, c0) from by
            simp only [classifyStep, hcalc]
            rw [if_neg hpb]] at hres
          have hdone := ih (n + 1) b0 c0 res hres k hk1 b hbk hb0 hlt2 hall2 h36b
          rw [hdone, show (n + 1) + k = n + (k + 1) from by omega]

/-- C9 (amended): the tie-break holds at any strictly positive top score:
since the running best starts at 0 and is only replaced on a strictly greater
score, the label returned is that of the lowest library index achieving the
(positive) top confidence — in particular, when templates `i < j` both
achieve the top confidence and no index below `i` does, the label of `i` is
returned.  At top confidence 0 no template is ever selected and the empty
label is returned instead of the lower-index template's label. -/
theorem classify_tie_lower_index_wins (ts : List Mat) (ch : Mat) (i j : Nat)
    (hij : i < j) (hj : j < ts.length) (b : ℚ) (res : ℚ × String)
    (hres : classify_character ts ch = Except.ok res)
    (hb_pos : 0 < b)
    (hbi : calculate_match_percentage ch (ts.get ⟨i, Nat.lt_trans hij hj⟩) =
      Except.ok b)
    (hbj : calculate_match_percentage ch (ts.get ⟨j, hj⟩) = Except.ok b)
    (hlt : ∀ k (hk : k < i),
      exLt (calculate_match_percentage ch
        (ts.get ⟨k, Nat.lt_trans hk (Nat.lt_trans hij hj)⟩)) b)
    (hall : ∀ k (hk : k < ts.length),
      exLe (calculate_match_percentage ch (ts.get ⟨k, hk⟩)) b)
    (h36 : i < char_map.length) :
    res = (b, String.mk [char_map.getD i ' ']) := by
  have hmain := classify_fold_first_max ch ts 0 0 "" res hres i
    (Nat.lt_trans hij hj) b hbi hb_pos hlt hall (by simpa using h36)
  rw [hmain, Nat.zero_add]

/-- C9 witness: three 1x1 templates; the first two tie at top confidence 100
against the cell `[[0]]` and the first one's label `'0'` is returned. -/
theorem classify_tie_lower_index_wins_witness :
    (classify_character [[[0]], [[0]], [[255]]] [[0]] = Except.ok (100, "0")) ∧
    ((0 : ℚ) < 100) ∧
    (((100 : ℚ), ("0" : String)) =
      (100, String.mk [char_map.getD 0 ' '])) :=
  ⟨by decide, by decide,
   classify_tie_lower_index_wins [[[0]], [[0]], [[255]]] [[0]] 0 1
     (by decide) (by decide) 100 (100, "0") (by decide) (by decide)
     (by decide) (by decide) (by decide) (by decide) (by decide)⟩

end AUScraper
